import Mathlib

/-!
Verification of the water-molecule synthesis simulator `proj2.c`.

The C program spawns `no` oxygen and `nh` hydrogen worker processes that
pair up in a 1 oxygen : 2 hydrogen ratio through semaphore-based admission
queues, create a molecule jointly behind a reusable two-turnstile barrier,
and shut down through a sticky `not_enough` flag once no further molecule
can be formed.

This file embeds the program shallowly:
* pure helpers (`parse_argument`, `wait_rand`, `flog`, the post-barrier
  supply check of the oxygen process) are translated as Lean functions;
* the two process bodies are transcribed as explicit instruction sequences
  (`oxygen_body`, `hydrogen_body`) together with an interpreter for the
  straight-line segments the theorems talk about;
* the admission step protected by `SEM_MUTEX` is given as a step function
  on the two waiting counters, and the whole concurrent program as a step
  relation over a counting abstraction of all process states, with
  semaphores as natural-number counters.

`uint32_t` fields are modeled as `Nat` with arithmetic reduced modulo
`2 ^ 32` wherever the C code can wrap.
-/

namespace Proj2

/-- Modulus of `uint32_t` arithmetic. -/
def U32 : Nat := 2 ^ 32

/-- `uint32_t` subtraction `a - b` for `a b < U32`. -/
def u32sub (a b : Nat) : Nat := (a + U32 - b) % U32

/-- `LONG_MAX` on an LP64 platform (64-bit `long`), as used by the
`parse_argument` calls for `NO` and `NH` in `main` (proj2.c:356-357). -/
def LONG_MAX : Nat := 2 ^ 63 - 1

/-! ### Argument parsing (proj2.c:184-192, 356-359) -/

/-- `parse_argument` (proj2.c:184-192): validates the `unsigned long` value
parsed by `strtoul` against `[min, max]`.  `none` means the function prints
`"Invalid argument"` and calls `exit(EXIT_FAILURE)`, i.e. the program ends
with exit code 1 before any shared state or child process exists.  The
input is the numeric value of a well-formed decimal argument string (the
string-syntax failure cases of `strtoul` also yield `none` in the code and
are outside this numeric model). -/
def parse_argument (number min max : Nat) : Option Nat :=
  if number > max ∨ number < min then none else some number

/-- Command line arguments structure (`arguments_t`, proj2.c:40-45).  All
four fields are `uint32_t` in C. -/
structure arguments_t where
  no : Nat
  nh : Nat
  ti : Nat
  tb : Nat
  deriving DecidableEq

/-- Argument-parsing stage of `main` (proj2.c:356-359): each positional
value is validated by `parse_argument` and the accepted `unsigned long` is
stored into the corresponding `uint32_t` field of `arguments_t`, an
implicit conversion that reduces the value modulo `2 ^ 32`. -/
def parseArgs (a1 a2 a3 a4 : Nat) : Option arguments_t := do
  let no ← parse_argument a1 1 LONG_MAX
  let nh ← parse_argument a2 1 LONG_MAX
  let ti ← parse_argument a3 0 1000
  let tb ← parse_argument a4 0 1000
  pure ⟨no % U32, nh % U32, ti % U32, tb % U32⟩

/-! ### Random delay (proj2.c:59-62) -/

/-- `wait_rand` (proj2.c:59-62): computes `time = rand() % (millis + 1)`.
`millis` is `uint32_t`, so the divisor is `(millis + 1) % 2 ^ 32`; `r` is
the nonnegative `int` returned by `rand()` (converted to unsigned by the
usual arithmetic conversions, preserving its value).  The result is the
sleep duration in milliseconds; the code then sleeps `time * 1000`
microseconds. -/
def wait_rand_delay (r millis : Nat) : Nat :=
  r % ((millis + 1) % U32)

/-! ### The logger `flog` (proj2.c:120, 159-172) -/

/-- Logger state: the value of `shared->log_line_number` (a `uint32_t`) and
the sequence numbers already printed, in file order. -/
structure LogState where
  log_line_number : Nat
  printed : List Nat
  deriving DecidableEq

/-- One call to `flog` (proj2.c:159-172): under `SEM_LOG_MUTEX` it prints
`"%d: "` with the current `log_line_number`, then the message, and then
increments `log_line_number`.  `SEM_LOG_MUTEX` is initialized to 1
(proj2.c:73) and is acquired and released only inside `flog`, so the whole
body is one critical section; we model a call as one atomic step. -/
def flog (s : LogState) : LogState :=
  { log_line_number := (s.log_line_number + 1) % U32
    printed := s.printed ++ [s.log_line_number] }

/-- `init_shared` (proj2.c:120) sets `log_line_number = 1` before any child
is spawned; nothing has been printed yet. -/
def initLog : LogState := { log_line_number := 1, printed := [] }

/-! ### Startup supply check in `main` (proj2.c:385-390) -/

/-- Startup special case (proj2.c:385-390): before spawning any process the
parent checks `args.no == 0 || args.nh < 2`; if so it sets
`shared->not_enough = true` and posts `SEM_OXYGEN_QUEUE` and
`SEM_HYDROGEN_QUEUE` once each.  Both queue semaphores are initialized to 0
(proj2.c:71-72) and `not_enough` to `false` (proj2.c:127).  The result is
the triple (`not_enough`, `SEM_OXYGEN_QUEUE`, `SEM_HYDROGEN_QUEUE`) right
after this check. -/
def startupSupply (args : arguments_t) : Bool × Nat × Nat :=
  if args.no = 0 ∨ args.nh < 2 then (true, 1, 1) else (false, 0, 0)

/-! ### The post-barrier supply check of the oxygen process
(proj2.c:276-283) -/

/-- What the oxygen unit does after the barrier: nothing, or set
`not_enough` and post one of the two admission queues. -/
inductive SupplyAction
  | wake_oxygen
  | wake_hydrogen
  | nothing
  deriving DecidableEq

/-- The decision of proj2.c:276-283, taken by the oxygen unit after the
barrier: `args.no - shared->oxygen_processed` and
`args.nh - shared->hydrogen_processed` are `uint32_t` differences.
`wake_oxygen` stands for `not_enough = true; sem_post(SEM_OXYGEN_QUEUE)`,
`wake_hydrogen` for `not_enough = true; sem_post(SEM_HYDROGEN_QUEUE)`. -/
def supply_check (args : arguments_t) (oxygen_processed hydrogen_processed : Nat) :
    SupplyAction :=
  if u32sub args.no oxygen_processed ≥ 1 ∧ u32sub args.nh hydrogen_processed < 2 then
    .wake_oxygen
  else if u32sub args.no oxygen_processed = 0 ∧ u32sub args.nh hydrogen_processed > 0 then
    .wake_hydrogen
  else
    .nothing

/-! ### The process bodies as instruction sequences

`oxygen_body` and `hydrogen_body` transcribe `oxygen_process`
(proj2.c:230-289) and `hydrogen_process` (proj2.c:300-343) instruction by
instruction, keeping the source order and branch structure.  `srand` and
the `id` parameter only affect the seed and the text of the log lines and
are not part of the shared-state behavior. -/

/-- Semaphore identifiers (`Sem`, proj2.c:14-23). -/
inductive Sem
  | mutex
  | oxygen_queue
  | hydrogen_queue
  | log_mutex
  | turnstile_mutex
  | turnstile
  | turnstile2
  deriving DecidableEq

/-- The message kinds a unit can log (proj2.c:235, 237, 255, 264, 273 and
305, 307, 325, 333, 338). -/
inductive Msg
  | started
  | going_to_queue
  | not_enough_h
  | not_enough_oh
  | creating
  | created
  deriving DecidableEq

/-- One C statement of a process body.  Branch statements carry their
then/else blocks. -/
inductive Instr
  | flog (m : Msg)
  | wait_rand_ti
  | wait_rand_tb
  | sem_wait (s : Sem)
  | sem_post (s : Sem)
  | incr_oxygen_count
  | incr_hydrogen_count
  | sub2_hydrogen_count
  | decr_oxygen_count
  | incr_molecule_count
  | incr_oxygen_processed
  | incr_hydrogen_processed
  | set_not_enough
  | barrier_call
  | close_log
  | exit0
  | if_hydrogen_ge2 (t e : List Instr)
  | if_h_ge2_and_o_ge1 (t e : List Instr)
  | if_not_enough (t : List Instr)
  | if_supply1 (t : List Instr)
  | if_supply2 (t : List Instr)

/-- `oxygen_process` (proj2.c:230-289), in source order.  The supply check
at proj2.c:276-283 is an if / else-if: `if_supply1` guards
`no - oxygen_processed >= 1 && nh - hydrogen_processed < 2`, and on its
false branch `if_supply2` guards
`no - oxygen_processed == 0 && nh - hydrogen_processed > 0`. -/
def oxygen_body : List Instr :=
  [ .flog .started,
    .wait_rand_ti,
    .flog .going_to_queue,
    .sem_wait .mutex,
    .incr_oxygen_count,
    .if_hydrogen_ge2
      [ .sem_post .hydrogen_queue, .sem_post .hydrogen_queue,
        .sub2_hydrogen_count, .sem_post .oxygen_queue, .decr_oxygen_count ]
      [ .sem_post .mutex ],
    .sem_wait .oxygen_queue,
    .if_not_enough
      [ .flog .not_enough_h, .sem_post .mutex, .sem_post .oxygen_queue,
        .sem_post .hydrogen_queue, .close_log, .exit0 ],
    .flog .creating,
    .wait_rand_tb,
    .incr_molecule_count,
    .incr_oxygen_processed,
    .barrier_call,
    .flog .created,
    .if_supply1 [ .set_not_enough, .sem_post .oxygen_queue ],
    .if_supply2 [ .set_not_enough, .sem_post .hydrogen_queue ],
    .sem_post .mutex,
    .close_log,
    .exit0 ]

/-- `hydrogen_process` (proj2.c:300-343), in source order. -/
def hydrogen_body : List Instr :=
  [ .flog .started,
    .wait_rand_ti,
    .flog .going_to_queue,
    .sem_wait .mutex,
    .incr_hydrogen_count,
    .if_h_ge2_and_o_ge1
      [ .sem_post .hydrogen_queue, .sem_post .hydrogen_queue,
        .sub2_hydrogen_count, .sem_post .oxygen_queue, .decr_oxygen_count ]
      [ .sem_post .mutex ],
    .sem_wait .hydrogen_queue,
    .if_not_enough
      [ .flog .not_enough_oh, .sem_post .oxygen_queue,
        .sem_post .hydrogen_queue, .close_log, .exit0 ],
    .flog .creating,
    .incr_hydrogen_processed,
    .barrier_call,
    .flog .created,
    .close_log,
    .exit0 ]

/-- Is this instruction the shutdown check `if (shared->not_enough)`? -/
def isNotEnoughCheck : Instr → Bool
  | .if_not_enough _ => true
  | _ => false

/-- The then-block of the shutdown check `if (shared->not_enough)` of a
body: the shutdown-cascade exit path (proj2.c:254-261 / 324-330). -/
def cascadeBranch (body : List Instr) : List Instr :=
  (body.filterMap fun i =>
    match i with
    | .if_not_enough t => some t
    | _ => none).flatten

/-- The instructions a unit executes after it has been released from its
admission queue and has found `not_enough` false: everything after the
shutdown check (proj2.c:263-288 / 332-342). -/
def afterShutdownCheck (body : List Instr) : List Instr :=
  (body.dropWhile fun i => !(isNotEnoughCheck i)).drop 1

/-! ### Interpreter for straight-line segments

The segments the theorems run (the shutdown-cascade branch and the
creation path up to the barrier) contain no blocking primitive other than
the final `exit`; each instruction acts on a copy of the relevant shared
memory fields. -/

/-- The shared-memory fields touched by the process bodies, the three
semaphores they post outside the barrier, the list of messages logged so
far, and whether the process has called `exit(0)`. -/
structure CState where
  oxygen_count : Nat
  hydrogen_count : Nat
  molecule_count : Nat
  oxygen_processed : Nat
  hydrogen_processed : Nat
  not_enough : Bool
  sem_mutex : Nat
  sem_oxygen_queue : Nat
  sem_hydrogen_queue : Nat
  log : List Msg
  exited : Bool
  deriving DecidableEq

/-- Effect of one non-branching, non-blocking instruction on `CState`.
`none` for instructions that suspend the process (`sem_wait`,
`barrier_call`) or for the branch statements, which do not occur in the
straight-line segments this interpreter is used on. -/
def interp : Instr → CState → Option CState
  | .flog m, s => some { s with log := s.log ++ [m] }
  | .wait_rand_ti, s => some s
  | .wait_rand_tb, s => some s
  | .sem_post .mutex, s => some { s with sem_mutex := s.sem_mutex + 1 }
  | .sem_post .oxygen_queue, s =>
      some { s with sem_oxygen_queue := s.sem_oxygen_queue + 1 }
  | .sem_post .hydrogen_queue, s =>
      some { s with sem_hydrogen_queue := s.sem_hydrogen_queue + 1 }
  | .incr_oxygen_count, s =>
      some { s with oxygen_count := (s.oxygen_count + 1) % U32 }
  | .incr_hydrogen_count, s =>
      some { s with hydrogen_count := (s.hydrogen_count + 1) % U32 }
  | .sub2_hydrogen_count, s =>
      some { s with hydrogen_count := u32sub s.hydrogen_count 2 }
  | .decr_oxygen_count, s =>
      some { s with oxygen_count := u32sub s.oxygen_count 1 }
  | .incr_molecule_count, s =>
      some { s with molecule_count := (s.molecule_count + 1) % U32 }
  | .incr_oxygen_processed, s =>
      some { s with oxygen_processed := (s.oxygen_processed + 1) % U32 }
  | .incr_hydrogen_processed, s =>
      some { s with hydrogen_processed := (s.hydrogen_processed + 1) % U32 }
  | .set_not_enough, s => some { s with not_enough := true }
  | .close_log, s => some s
  | .exit0, s => some { s with exited := true }
  | _, _ => none

/-- Run a straight-line instruction segment. -/
def runSeq : List Instr → CState → Option CState
  | [], s => some s
  | i :: rest, s => (interp i s).bind (runSeq rest)

/-- Is this instruction the `barrier()` call? -/
def isBarrier : Instr → Bool
  | .barrier_call => true
  | _ => false

/-- The instructions of a segment that execute before its `barrier()`
call. -/
def upToBarrier (l : List Instr) : List Instr :=
  l.takeWhile fun i => !(isBarrier i)

/-- The direct sub-blocks of an instruction.  In `oxygen_body` and
`hydrogen_body` every branch block is itself branch-free, so one level of
flattening exposes every instruction of a body. -/
def subBranches : Instr → List Instr
  | .if_hydrogen_ge2 t e => t ++ e
  | .if_h_ge2_and_o_ge1 t e => t ++ e
  | .if_not_enough t => t
  | .if_supply1 t => t
  | .if_supply2 t => t
  | _ => []

/-- All instructions of a body, branch blocks included (one level, which is
exact for the two bodies above). -/
def flatten1 (l : List Instr) : List Instr :=
  (l.map fun i => i :: subBranches i).flatten

/-- Does this instruction evaluate or act on the supply condition
(proj2.c:276-283)? -/
def isSupplyEval : Instr → Bool
  | .if_supply1 _ => true
  | .if_supply2 _ => true
  | .set_not_enough => true
  | _ => false

/-- Is this instruction the `flog` call of a "molecule created" line? -/
def isCreatedLog : Instr → Bool
  | .flog .created => true
  | _ => false

/-! ### The admission step under `SEM_MUTEX`
(proj2.c:240-250 and 310-320)

Every admission runs entirely inside one `SEM_MUTEX` critical section, so
its reads and writes of `oxygen_count` and `hydrogen_count` form one atomic
step with respect to the other admissions. -/

/-- The two waiting counters of the pairing protocol
(`shared->oxygen_count`, `shared->hydrogen_count`; both `uint32_t`). -/
structure AdmState where
  oxygen_count : Nat
  hydrogen_count : Nat
  deriving DecidableEq

/-- The kind of an arriving unit. -/
inductive Arrival
  | oxygen
  | hydrogen
  deriving DecidableEq

/-- One admission.  An arriving oxygen (proj2.c:240-250) increments
`oxygen_count`; if `hydrogen_count >= 2` it posts the two hydrogen-queue
releases and the oxygen-queue release, decrements `hydrogen_count` by 2 and
`oxygen_count` by 1.  An arriving hydrogen (proj2.c:310-320) increments
`hydrogen_count`; if `hydrogen_count >= 2 && oxygen_count >= 1` it performs
the same reservation.  The returned flag records whether the reservation
(match) branch ran; the queue posts themselves are studied on the full
program model. -/
def arrive : Arrival → AdmState → AdmState × Bool
  | .oxygen, s =>
    let oc := (s.oxygen_count + 1) % U32
    if s.hydrogen_count ≥ 2 then
      (⟨u32sub oc 1, u32sub s.hydrogen_count 2⟩, true)
    else
      (⟨oc, s.hydrogen_count⟩, false)
  | .hydrogen, s =>
    let hc := (s.hydrogen_count + 1) % U32
    if hc ≥ 2 ∧ s.oxygen_count ≥ 1 then
      (⟨u32sub s.oxygen_count 1, u32sub hc 2⟩, true)
    else
      (⟨s.oxygen_count, hc⟩, false)

/-- Both waiting counters start at 0 (`init_shared`, proj2.c:121-122). -/
def initAdm : AdmState := ⟨0, 0⟩

/-- The waiting counters after a sequence of admissions. -/
def runAdm (l : List Arrival) : AdmState :=
  l.foldl (fun s a => (arrive a s).1) initAdm

/-- Invariant of the waiting counters: both are genuine `uint32_t` values,
and whenever an oxygen unit is counted as waiting, fewer than 2 hydrogen
units are. -/
def InvAdm (s : AdmState) : Prop :=
  s.oxygen_count < U32 ∧ s.hydrogen_count < U32 ∧
    (1 ≤ s.oxygen_count → s.hydrogen_count < 2)

/-! ### The whole program as an interleaving model
(proj2.c:200-219, 230-289, 300-343, 348-433)

Every process is a chain of atomic actions, one per source line that
touches shared state; a scheduler step picks any enabled action of any
process.  Because processes of one kind are interchangeable for the
counters and the log-line counts, the state records, for every control
point, how many processes are about to execute it (a counting abstraction:
claims about identities of units become claims about counts).  Semaphores
are natural-number counters (`sem_wait` is enabled when the value is
positive), `uint32_t` fields wrap modulo `2 ^ 32`, and `not_enough` is 0
or 1.  `wait_rand` and `srand` only delay a process and are subsumed by
the nondeterministic scheduler; `flog` is one atomic action (its body is
a `SEM_LOG_MUTEX` critical section and that semaphore is used nowhere
else); `close_log` does not touch shared counters.  The ghost fields
`g…` count completed events (they are never read by any action) so that
invariants can speak about the history of a run. -/

/-- The global state: shared memory, semaphores, two log-line counters,
one occupancy count per control point of each process kind, and ghost
event counters.  Control points are annotated with the source line whose
execution they are about to perform; `…ExitA` / `…ExitC` count processes
that have terminated through the creation path / the shutdown-cascade
path. -/
structure St where
  oxygen_count : Nat
  hydrogen_count : Nat
  molecule_count : Nat
  oxygen_processed : Nat
  hydrogen_processed : Nat
  turnstile_count : Nat
  not_enough : Nat
  log_line_number : Nat
  mutex : Nat
  oxygen_queue : Nat
  hydrogen_queue : Nat
  turnstile_mutex : Nat
  turnstile : Nat
  turnstile2 : Nat
  logOCasc : Nat
  logHCasc : Nat
  oStart : Nat
  oQueueLog : Nat
  oMutexW : Nat
  oOcInc : Nat
  oHChk : Nat
  oPH1 : Nat
  oPH2 : Nat
  oHcDec : Nat
  oPOQ : Nat
  oOcDec : Nat
  oPMut : Nat
  oQW : Nat
  oFlagChk : Nat
  oCLog : Nat
  oCPMut : Nat
  oCPO : Nat
  oCPH : Nat
  oCreatingLog : Nat
  oMcInc : Nat
  oOpInc : Nat
  ob0 : Nat
  ob1 : Nat
  ob2 : Nat
  ob3 : Nat
  ob4 : Nat
  ob5 : Nat
  ob6 : Nat
  ob7 : Nat
  ob8 : Nat
  ob9 : Nat
  ob10 : Nat
  ob11 : Nat
  ob12 : Nat
  ob13 : Nat
  ob14 : Nat
  ob15 : Nat
  oCreatedLog : Nat
  oChk1 : Nat
  oSet1 : Nat
  oPost1 : Nat
  oChk2 : Nat
  oSet2 : Nat
  oPost2 : Nat
  oFinPMut : Nat
  oExitA : Nat
  oExitC : Nat
  hStart : Nat
  hQueueLog : Nat
  hMutexW : Nat
  hHcInc : Nat
  hChk : Nat
  hPH1 : Nat
  hPH2 : Nat
  hHcDec : Nat
  hPOQ : Nat
  hOcDec : Nat
  hPMut : Nat
  hQW : Nat
  hFlagChk : Nat
  hCLog : Nat
  hCPO : Nat
  hCPH : Nat
  hCreatingLog : Nat
  hHpInc : Nat
  hb0 : Nat
  hb1 : Nat
  hb2 : Nat
  hb3 : Nat
  hb4 : Nat
  hb5 : Nat
  hb6 : Nat
  hb7 : Nat
  hb8 : Nat
  hb9 : Nat
  hb10 : Nat
  hb11 : Nat
  hb12 : Nat
  hb13 : Nat
  hb14 : Nat
  hb15 : Nat
  hCreatedLog : Nat
  hExitA : Nat
  hExitC : Nat
  gOM : Nat
  gHM : Nat
  gOPM : Nat
  gHPM : Nat
  gSupO : Nat
  gSupH : Nat
  gK : Nat
  gK2 : Nat
  deriving DecidableEq

/-- The control points a scheduler step can fire.  `Ao…` points belong to
the oxygen body (proj2.c:230-289), `Ah…` to the hydrogen body
(proj2.c:300-343); `…b0` – `…b15` are the lines of `barrier()`
(proj2.c:200-219) executed by a process of that kind. -/
inductive PC
  | AoStart
  | AoQueueLog
  | AoMutexW
  | AoOcInc
  | AoHChk
  | AoPH1
  | AoPH2
  | AoHcDec
  | AoPOQ
  | AoOcDec
  | AoPMut
  | AoQW
  | AoFlagChk
  | AoCLog
  | AoCPMut
  | AoCPO
  | AoCPH
  | AoCreatingLog
  | AoMcInc
  | AoOpInc
  | Aob0
  | Aob1
  | Aob2
  | Aob3
  | Aob4
  | Aob5
  | Aob6
  | Aob7
  | Aob8
  | Aob9
  | Aob10
  | Aob11
  | Aob12
  | Aob13
  | Aob14
  | Aob15
  | AoCreatedLog
  | AoChk1
  | AoSet1
  | AoPost1
  | AoChk2
  | AoSet2
  | AoPost2
  | AoFinPMut
  | AhStart
  | AhQueueLog
  | AhMutexW
  | AhHcInc
  | AhChk
  | AhPH1
  | AhPH2
  | AhHcDec
  | AhPOQ
  | AhOcDec
  | AhPMut
  | AhQW
  | AhFlagChk
  | AhCLog
  | AhCPO
  | AhCPH
  | AhCreatingLog
  | AhHpInc
  | Ahb0
  | Ahb1
  | Ahb2
  | Ahb3
  | Ahb4
  | Ahb5
  | Ahb6
  | Ahb7
  | Ahb8
  | Ahb9
  | Ahb10
  | Ahb11
  | Ahb12
  | Ahb13
  | Ahb14
  | Ahb15
  | AhCreatedLog
  deriving DecidableEq

/-- One scheduler step: fire the given control point if a process stands
there and the action is enabled (semaphore positive, branch condition as
read from the state); `none` when the step is not possible.  `no`/`nh` are
`args.no`/`args.nh` as used by the supply check (proj2.c:276-280). -/
def exec (no nh : Nat) (s : St) : PC → Option St
  | .AoStart =>
      if 1 ≤ s.oStart then
        some { s with oStart := s.oStart - 1, oQueueLog := s.oQueueLog + 1,
                      log_line_number := (s.log_line_number + 1) % U32 }
      else none
  | .AoQueueLog =>
      if 1 ≤ s.oQueueLog then
        some { s with oQueueLog := s.oQueueLog - 1, oMutexW := s.oMutexW + 1,
                      log_line_number := (s.log_line_number + 1) % U32 }
      else none
  | .AoMutexW =>
      if 1 ≤ s.oMutexW ∧ 1 ≤ s.mutex then
        some { s with oMutexW := s.oMutexW - 1, oOcInc := s.oOcInc + 1,
                      mutex := s.mutex - 1 }
      else none
  | .AoOcInc =>
      if 1 ≤ s.oOcInc then
        some { s with oOcInc := s.oOcInc - 1, oHChk := s.oHChk + 1,
                      oxygen_count := (s.oxygen_count + 1) % U32 }
      else none
  | .AoHChk =>
      if 1 ≤ s.oHChk then
        if 2 ≤ s.hydrogen_count then
          some { s with oHChk := s.oHChk - 1, oPH1 := s.oPH1 + 1 }
        else
          some { s with oHChk := s.oHChk - 1, oPMut := s.oPMut + 1 }
      else none
  | .AoPH1 =>
      if 1 ≤ s.oPH1 then
        some { s with oPH1 := s.oPH1 - 1, oPH2 := s.oPH2 + 1,
                      hydrogen_queue := s.hydrogen_queue + 1 }
      else none
  | .AoPH2 =>
      if 1 ≤ s.oPH2 then
        some { s with oPH2 := s.oPH2 - 1, oHcDec := s.oHcDec + 1,
                      hydrogen_queue := s.hydrogen_queue + 1 }
      else none
  | .AoHcDec =>
      if 1 ≤ s.oHcDec then
        some { s with oHcDec := s.oHcDec - 1, oPOQ := s.oPOQ + 1,
                      hydrogen_count := u32sub s.hydrogen_count 2 }
      else none
  | .AoPOQ =>
      if 1 ≤ s.oPOQ then
        some { s with oPOQ := s.oPOQ - 1, oOcDec := s.oOcDec + 1,
                      oxygen_queue := s.oxygen_queue + 1 }
      else none
  | .AoOcDec =>
      if 1 ≤ s.oOcDec then
        some { s with oOcDec := s.oOcDec - 1, oQW := s.oQW + 1,
                      oxygen_count := u32sub s.oxygen_count 1,
                      gOM := s.gOM + 1 }
      else none
  | .AoPMut =>
      if 1 ≤ s.oPMut then
        some { s with oPMut := s.oPMut - 1, oQW := s.oQW + 1,
                      mutex := s.mutex + 1, gOPM := s.gOPM + 1 }
      else none
  | .AoQW =>
      if 1 ≤ s.oQW ∧ 1 ≤ s.oxygen_queue then
        some { s with oQW := s.oQW - 1, oFlagChk := s.oFlagChk + 1,
                      oxygen_queue := s.oxygen_queue - 1 }
      else none
  | .AoFlagChk =>
      if 1 ≤ s.oFlagChk then
        if s.not_enough = 1 then
          some { s with oFlagChk := s.oFlagChk - 1, oCLog := s.oCLog + 1 }
        else
          some { s with oFlagChk := s.oFlagChk - 1,
                        oCreatingLog := s.oCreatingLog + 1 }
      else none
  | .AoCLog =>
      if 1 ≤ s.oCLog then
        some { s with oCLog := s.oCLog - 1, oCPMut := s.oCPMut + 1,
                      logOCasc := s.logOCasc + 1,
                      log_line_number := (s.log_line_number + 1) % U32 }
      else none
  | .AoCPMut =>
      if 1 ≤ s.oCPMut then
        some { s with oCPMut := s.oCPMut - 1, oCPO := s.oCPO + 1,
                      mutex := s.mutex + 1 }
      else none
  | .AoCPO =>
      if 1 ≤ s.oCPO then
        some { s with oCPO := s.oCPO - 1, oCPH := s.oCPH + 1,
                      oxygen_queue := s.oxygen_queue + 1 }
      else none
  | .AoCPH =>
      if 1 ≤ s.oCPH then
        some { s with oCPH := s.oCPH - 1, oExitC := s.oExitC + 1,
                      hydrogen_queue := s.hydrogen_queue + 1 }
      else none
  | .AoCreatingLog =>
      if 1 ≤ s.oCreatingLog then
        some { s with oCreatingLog := s.oCreatingLog - 1, oMcInc := s.oMcInc + 1,
                      log_line_number := (s.log_line_number + 1) % U32 }
      else none
  | .AoMcInc =>
      if 1 ≤ s.oMcInc then
        some { s with oMcInc := s.oMcInc - 1, oOpInc := s.oOpInc + 1,
                      molecule_count := (s.molecule_count + 1) % U32 }
      else none
  | .AoOpInc =>
      if 1 ≤ s.oOpInc then
        some { s with oOpInc := s.oOpInc - 1, ob0 := s.ob0 + 1,
                      oxygen_processed := (s.oxygen_processed + 1) % U32 }
      else none
  | .Aob0 =>
      if 1 ≤ s.ob0 ∧ 1 ≤ s.turnstile_mutex then
        some { s with ob0 := s.ob0 - 1, ob1 := s.ob1 + 1,
                      turnstile_mutex := s.turnstile_mutex - 1 }
      else none
  | .Aob1 =>
      if 1 ≤ s.ob1 then
        some { s with ob1 := s.ob1 - 1, ob2 := s.ob2 + 1,
                      turnstile_count := (s.turnstile_count + 1) % U32 }
      else none
  | .Aob2 =>
      if 1 ≤ s.ob2 then
        if s.turnstile_count = 3 then
          some { s with ob2 := s.ob2 - 1, ob3 := s.ob3 + 1 }
        else
          some { s with ob2 := s.ob2 - 1, ob5 := s.ob5 + 1 }
      else none
  | .Aob3 =>
      if 1 ≤ s.ob3 ∧ 1 ≤ s.turnstile2 then
        some { s with ob3 := s.ob3 - 1, ob4 := s.ob4 + 1,
                      turnstile2 := s.turnstile2 - 1 }
      else none
  | .Aob4 =>
      if 1 ≤ s.ob4 then
        some { s with ob4 := s.ob4 - 1, ob5 := s.ob5 + 1,
                      turnstile := s.turnstile + 1, gK := s.gK + 1 }
      else none
  | .Aob5 =>
      if 1 ≤ s.ob5 then
        some { s with ob5 := s.ob5 - 1, ob6 := s.ob6 + 1,
                      turnstile_mutex := s.turnstile_mutex + 1 }
      else none
  | .Aob6 =>
      if 1 ≤ s.ob6 ∧ 1 ≤ s.turnstile then
        some { s with ob6 := s.ob6 - 1, ob7 := s.ob7 + 1,
                      turnstile := s.turnstile - 1 }
      else none
  | .Aob7 =>
      if 1 ≤ s.ob7 then
        some { s with ob7 := s.ob7 - 1, ob8 := s.ob8 + 1,
                      turnstile := s.turnstile + 1 }
      else none
  | .Aob8 =>
      if 1 ≤ s.ob8 ∧ 1 ≤ s.turnstile_mutex then
        some { s with ob8 := s.ob8 - 1, ob9 := s.ob9 + 1,
                      turnstile_mutex := s.turnstile_mutex - 1 }
      else none
  | .Aob9 =>
      if 1 ≤ s.ob9 then
        some { s with ob9 := s.ob9 - 1, ob10 := s.ob10 + 1,
                      turnstile_count := u32sub s.turnstile_count 1 }
      else none
  | .Aob10 =>
      if 1 ≤ s.ob10 then
        if s.turnstile_count = 0 then
          some { s with ob10 := s.ob10 - 1, ob11 := s.ob11 + 1 }
        else
          some { s with ob10 := s.ob10 - 1, ob13 := s.ob13 + 1 }
      else none
  | .Aob11 =>
      if 1 ≤ s.ob11 ∧ 1 ≤ s.turnstile then
        some { s with ob11 := s.ob11 - 1, ob12 := s.ob12 + 1,
                      turnstile := s.turnstile - 1 }
      else none
  | .Aob12 =>
      if 1 ≤ s.ob12 then
        some { s with ob12 := s.ob12 - 1, ob13 := s.ob13 + 1,
                      turnstile2 := s.turnstile2 + 1, gK2 := s.gK2 + 1 }
      else none
  | .Aob13 =>
      if 1 ≤ s.ob13 then
        some { s with ob13 := s.ob13 - 1, ob14 := s.ob14 + 1,
                      turnstile_mutex := s.turnstile_mutex + 1 }
      else none
  | .Aob14 =>
      if 1 ≤ s.ob14 ∧ 1 ≤ s.turnstile2 then
        some { s with ob14 := s.ob14 - 1, ob15 := s.ob15 + 1,
                      turnstile2 := s.turnstile2 - 1 }
      else none
  | .Aob15 =>
      if 1 ≤ s.ob15 then
        some { s with ob15 := s.ob15 - 1, oCreatedLog := s.oCreatedLog + 1,
                      turnstile2 := s.turnstile2 + 1 }
      else none
  | .AoCreatedLog =>
      if 1 ≤ s.oCreatedLog then
        some { s with oCreatedLog := s.oCreatedLog - 1, oChk1 := s.oChk1 + 1,
                      log_line_number := (s.log_line_number + 1) % U32 }
      else none
  | .AoChk1 =>
      if 1 ≤ s.oChk1 then
        if 1 ≤ u32sub no s.oxygen_processed ∧ u32sub nh s.hydrogen_processed < 2 then
          some { s with oChk1 := s.oChk1 - 1, oSet1 := s.oSet1 + 1 }
        else
          some { s with oChk1 := s.oChk1 - 1, oChk2 := s.oChk2 + 1 }
      else none
  | .AoSet1 =>
      if 1 ≤ s.oSet1 then
        some { s with oSet1 := s.oSet1 - 1, oPost1 := s.oPost1 + 1,
                      not_enough := 1 }
      else none
  | .AoPost1 =>
      if 1 ≤ s.oPost1 then
        some { s with oPost1 := s.oPost1 - 1, oFinPMut := s.oFinPMut + 1,
                      oxygen_queue := s.oxygen_queue + 1, gSupO := s.gSupO + 1 }
      else none
  | .AoChk2 =>
      if 1 ≤ s.oChk2 then
        if u32sub no s.oxygen_processed = 0 ∧ 0 < u32sub nh s.hydrogen_processed then
          some { s with oChk2 := s.oChk2 - 1, oSet2 := s.oSet2 + 1 }
        else
          some { s with oChk2 := s.oChk2 - 1, oFinPMut := s.oFinPMut + 1 }
      else none
  | .AoSet2 =>
      if 1 ≤ s.oSet2 then
        some { s with oSet2 := s.oSet2 - 1, oPost2 := s.oPost2 + 1,
                      not_enough := 1 }
      else none
  | .AoPost2 =>
      if 1 ≤ s.oPost2 then
        some { s with oPost2 := s.oPost2 - 1, oFinPMut := s.oFinPMut + 1,
                      hydrogen_queue := s.hydrogen_queue + 1, gSupH := s.gSupH + 1 }
      else none
  | .AoFinPMut =>
      if 1 ≤ s.oFinPMut then
        some { s with oFinPMut := s.oFinPMut - 1, oExitA := s.oExitA + 1,
                      mutex := s.mutex + 1 }
      else none
  | .AhStart =>
      if 1 ≤ s.hStart then
        some { s with hStart := s.hStart - 1, hQueueLog := s.hQueueLog + 1,
                      log_line_number := (s.log_line_number + 1) % U32 }
      else none
  | .AhQueueLog =>
      if 1 ≤ s.hQueueLog then
        some { s with hQueueLog := s.hQueueLog - 1, hMutexW := s.hMutexW + 1,
                      log_line_number := (s.log_line_number + 1) % U32 }
      else none
  | .AhMutexW =>
      if 1 ≤ s.hMutexW ∧ 1 ≤ s.mutex then
        some { s with hMutexW := s.hMutexW - 1, hHcInc := s.hHcInc + 1,
                      mutex := s.mutex - 1 }
      else none
  | .AhHcInc =>
      if 1 ≤ s.hHcInc then
        some { s with hHcInc := s.hHcInc - 1, hChk := s.hChk + 1,
                      hydrogen_count := (s.hydrogen_count + 1) % U32 }
      else none
  | .AhChk =>
      if 1 ≤ s.hChk then
        if 2 ≤ s.hydrogen_count ∧ 1 ≤ s.oxygen_count then
          some { s with hChk := s.hChk - 1, hPH1 := s.hPH1 + 1 }
        else
          some { s with hChk := s.hChk - 1, hPMut := s.hPMut + 1 }
      else none
  | .AhPH1 =>
      if 1 ≤ s.hPH1 then
        some { s with hPH1 := s.hPH1 - 1, hPH2 := s.hPH2 + 1,
                      hydrogen_queue := s.hydrogen_queue + 1 }
      else none
  | .AhPH2 =>
      if 1 ≤ s.hPH2 then
        some { s with hPH2 := s.hPH2 - 1, hHcDec := s.hHcDec + 1,
                      hydrogen_queue := s.hydrogen_queue + 1 }
      else none
  | .AhHcDec =>
      if 1 ≤ s.hHcDec then
        some { s with hHcDec := s.hHcDec - 1, hPOQ := s.hPOQ + 1,
                      hydrogen_count := u32sub s.hydrogen_count 2 }
      else none
  | .AhPOQ =>
      if 1 ≤ s.hPOQ then
        some { s with hPOQ := s.hPOQ - 1, hOcDec := s.hOcDec + 1,
                      oxygen_queue := s.oxygen_queue + 1 }
      else none
  | .AhOcDec =>
      if 1 ≤ s.hOcDec then
        some { s with hOcDec := s.hOcDec - 1, hQW := s.hQW + 1,
                      oxygen_count := u32sub s.oxygen_count 1,
                      gHM := s.gHM + 1 }
      else none
  | .AhPMut =>
      if 1 ≤ s.hPMut then
        some { s with hPMut := s.hPMut - 1, hQW := s.hQW + 1,
                      mutex := s.mutex + 1, gHPM := s.gHPM + 1 }
      else none
  | .AhQW =>
      if 1 ≤ s.hQW ∧ 1 ≤ s.hydrogen_queue then
        some { s with hQW := s.hQW - 1, hFlagChk := s.hFlagChk + 1,
                      hydrogen_queue := s.hydrogen_queue - 1 }
      else none
  | .AhFlagChk =>
      if 1 ≤ s.hFlagChk then
        if s.not_enough = 1 then
          some { s with hFlagChk := s.hFlagChk - 1, hCLog := s.hCLog + 1 }
        else
          some { s with hFlagChk := s.hFlagChk - 1,
                        hCreatingLog := s.hCreatingLog + 1 }
      else none
  | .AhCLog =>
      if 1 ≤ s.hCLog then
        some { s with hCLog := s.hCLog - 1, hCPO := s.hCPO + 1,
                      logHCasc := s.logHCasc + 1,
                      log_line_number := (s.log_line_number + 1) % U32 }
      else none
  | .AhCPO =>
      if 1 ≤ s.hCPO then
        some { s with hCPO := s.hCPO - 1, hCPH := s.hCPH + 1,
                      oxygen_queue := s.oxygen_queue + 1 }
      else none
  | .AhCPH =>
      if 1 ≤ s.hCPH then
        some { s with hCPH := s.hCPH - 1, hExitC := s.hExitC + 1,
                      hydrogen_queue := s.hydrogen_queue + 1 }
      else none
  | .AhCreatingLog =>
      if 1 ≤ s.hCreatingLog then
        some { s with hCreatingLog := s.hCreatingLog - 1, hHpInc := s.hHpInc + 1,
                      log_line_number := (s.log_line_number + 1) % U32 }
      else none
  | .AhHpInc =>
      if 1 ≤ s.hHpInc then
        some { s with hHpInc := s.hHpInc - 1, hb0 := s.hb0 + 1,
                      hydrogen_processed := (s.hydrogen_processed + 1) % U32 }
      else none
  | .Ahb0 =>
      if 1 ≤ s.hb0 ∧ 1 ≤ s.turnstile_mutex then
        some { s with hb0 := s.hb0 - 1, hb1 := s.hb1 + 1,
                      turnstile_mutex := s.turnstile_mutex - 1 }
      else none
  | .Ahb1 =>
      if 1 ≤ s.hb1 then
        some { s with hb1 := s.hb1 - 1, hb2 := s.hb2 + 1,
                      turnstile_count := (s.turnstile_count + 1) % U32 }
      else none
  | .Ahb2 =>
      if 1 ≤ s.hb2 then
        if s.turnstile_count = 3 then
          some { s with hb2 := s.hb2 - 1, hb3 := s.hb3 + 1 }
        else
          some { s with hb2 := s.hb2 - 1, hb5 := s.hb5 + 1 }
      else none
  | .Ahb3 =>
      if 1 ≤ s.hb3 ∧ 1 ≤ s.turnstile2 then
        some { s with hb3 := s.hb3 - 1, hb4 := s.hb4 + 1,
                      turnstile2 := s.turnstile2 - 1 }
      else none
  | .Ahb4 =>
      if 1 ≤ s.hb4 then
        some { s with hb4 := s.hb4 - 1, hb5 := s.hb5 + 1,
                      turnstile := s.turnstile + 1, gK := s.gK + 1 }
      else none
  | .Ahb5 =>
      if 1 ≤ s.hb5 then
        some { s with hb5 := s.hb5 - 1, hb6 := s.hb6 + 1,
                      turnstile_mutex := s.turnstile_mutex + 1 }
      else none
  | .Ahb6 =>
      if 1 ≤ s.hb6 ∧ 1 ≤ s.turnstile then
        some { s with hb6 := s.hb6 - 1, hb7 := s.hb7 + 1,
                      turnstile := s.turnstile - 1 }
      else none
  | .Ahb7 =>
      if 1 ≤ s.hb7 then
        some { s with hb7 := s.hb7 - 1, hb8 := s.hb8 + 1,
                      turnstile := s.turnstile + 1 }
      else none
  | .Ahb8 =>
      if 1 ≤ s.hb8 ∧ 1 ≤ s.turnstile_mutex then
        some { s with hb8 := s.hb8 - 1, hb9 := s.hb9 + 1,
                      turnstile_mutex := s.turnstile_mutex - 1 }
      else none
  | .Ahb9 =>
      if 1 ≤ s.hb9 then
        some { s with hb9 := s.hb9 - 1, hb10 := s.hb10 + 1,
                      turnstile_count := u32sub s.turnstile_count 1 }
      else none
  | .Ahb10 =>
      if 1 ≤ s.hb10 then
        if s.turnstile_count = 0 then
          some { s with hb10 := s.hb10 - 1, hb11 := s.hb11 + 1 }
        else
          some { s with hb10 := s.hb10 - 1, hb13 := s.hb13 + 1 }
      else none
  | .Ahb11 =>
      if 1 ≤ s.hb11 ∧ 1 ≤ s.turnstile then
        some { s with hb11 := s.hb11 - 1, hb12 := s.hb12 + 1,
                      turnstile := s.turnstile - 1 }
      else none
  | .Ahb12 =>
      if 1 ≤ s.hb12 then
        some { s with hb12 := s.hb12 - 1, hb13 := s.hb13 + 1,
                      turnstile2 := s.turnstile2 + 1, gK2 := s.gK2 + 1 }
      else none
  | .Ahb13 =>
      if 1 ≤ s.hb13 then
        some { s with hb13 := s.hb13 - 1, hb14 := s.hb14 + 1,
                      turnstile_mutex := s.turnstile_mutex + 1 }
      else none
  | .Ahb14 =>
      if 1 ≤ s.hb14 ∧ 1 ≤ s.turnstile2 then
        some { s with hb14 := s.hb14 - 1, hb15 := s.hb15 + 1,
                      turnstile2 := s.turnstile2 - 1 }
      else none
  | .Ahb15 =>
      if 1 ≤ s.hb15 then
        some { s with hb15 := s.hb15 - 1, hCreatedLog := s.hCreatedLog + 1,
                      turnstile2 := s.turnstile2 + 1 }
      else none
  | .AhCreatedLog =>
      if 1 ≤ s.hCreatedLog then
        some { s with hCreatedLog := s.hCreatedLog - 1, hExitA := s.hExitA + 1,
                      log_line_number := (s.log_line_number + 1) % U32 }
      else none

/-- The state right after `main` has initialized shared memory
(proj2.c:120-127), the semaphores (proj2.c:71-74), run the startup supply
check (proj2.c:385-390) and spawned all `no + nh` children (a child
performs no action before its first instruction, so spawning order is
subsumed by scheduling). -/
def initSt (no nh : Nat) : St :=
  let st : Nat := if no = 0 ∨ nh < 2 then 1 else 0
  { oxygen_count := 0, hydrogen_count := 0, molecule_count := 0,
    oxygen_processed := 0, hydrogen_processed := 0, turnstile_count := 0,
    not_enough := st, log_line_number := 1,
    mutex := 1, oxygen_queue := st, hydrogen_queue := st,
    turnstile_mutex := 1, turnstile := 0, turnstile2 := 1,
    logOCasc := 0, logHCasc := 0,
    oStart := no, oQueueLog := 0, oMutexW := 0, oOcInc := 0, oHChk := 0,
    oPH1 := 0, oPH2 := 0, oHcDec := 0, oPOQ := 0, oOcDec := 0, oPMut := 0,
    oQW := 0, oFlagChk := 0, oCLog := 0, oCPMut := 0, oCPO := 0, oCPH := 0,
    oCreatingLog := 0, oMcInc := 0, oOpInc := 0,
    ob0 := 0, ob1 := 0, ob2 := 0, ob3 := 0, ob4 := 0, ob5 := 0, ob6 := 0,
    ob7 := 0, ob8 := 0, ob9 := 0, ob10 := 0, ob11 := 0, ob12 := 0,
    ob13 := 0, ob14 := 0, ob15 := 0,
    oCreatedLog := 0, oChk1 := 0, oSet1 := 0, oPost1 := 0, oChk2 := 0,
    oSet2 := 0, oPost2 := 0, oFinPMut := 0, oExitA := 0, oExitC := 0,
    hStart := nh, hQueueLog := 0, hMutexW := 0, hHcInc := 0, hChk := 0,
    hPH1 := 0, hPH2 := 0, hHcDec := 0, hPOQ := 0, hOcDec := 0, hPMut := 0,
    hQW := 0, hFlagChk := 0, hCLog := 0, hCPO := 0, hCPH := 0,
    hCreatingLog := 0, hHpInc := 0,
    hb0 := 0, hb1 := 0, hb2 := 0, hb3 := 0, hb4 := 0, hb5 := 0, hb6 := 0,
    hb7 := 0, hb8 := 0, hb9 := 0, hb10 := 0, hb11 := 0, hb12 := 0,
    hb13 := 0, hb14 := 0, hb15 := 0,
    hCreatedLog := 0, hExitA := 0, hExitC := 0,
    gOM := 0, gHM := 0, gOPM := 0, gHPM := 0, gSupO := 0, gSupH := 0,
    gK := 0, gK2 := 0 }

/-- Run a schedule (a list of control points) from a state. -/
def execList (no nh : Nat) : St → List PC → Option St
  | s, [] => some s
  | s, a :: rest => (exec no nh s a).bind (fun s2 => execList no nh s2 rest)

/-- A state of a run of the program with totals `no`, `nh`: reachable from
the initial state by some schedule. -/
def Reachable (no nh : Nat) (s : St) : Prop :=
  ∃ tr : List PC, execList no nh (initSt no nh) tr = some s

/-- Number of oxygen processes that have not terminated. -/
def activeO (s : St) : Nat :=
  s.oStart + s.oQueueLog + s.oMutexW + s.oOcInc + s.oHChk + s.oPH1 + s.oPH2 +
  s.oHcDec + s.oPOQ + s.oOcDec + s.oPMut + s.oQW + s.oFlagChk + s.oCLog +
  s.oCPMut + s.oCPO + s.oCPH + s.oCreatingLog + s.oMcInc + s.oOpInc +
  s.ob0 + s.ob1 + s.ob2 + s.ob3 + s.ob4 + s.ob5 + s.ob6 + s.ob7 + s.ob8 +
  s.ob9 + s.ob10 + s.ob11 + s.ob12 + s.ob13 + s.ob14 + s.ob15 +
  s.oCreatedLog + s.oChk1 + s.oSet1 + s.oPost1 + s.oChk2 + s.oSet2 +
  s.oPost2 + s.oFinPMut

/-- Number of hydrogen processes that have not terminated. -/
def activeH (s : St) : Nat :=
  s.hStart + s.hQueueLog + s.hMutexW + s.hHcInc + s.hChk + s.hPH1 + s.hPH2 +
  s.hHcDec + s.hPOQ + s.hOcDec + s.hPMut + s.hQW + s.hFlagChk + s.hCLog +
  s.hCPO + s.hCPH + s.hCreatingLog + s.hHpInc +
  s.hb0 + s.hb1 + s.hb2 + s.hb3 + s.hb4 + s.hb5 + s.hb6 + s.hb7 + s.hb8 +
  s.hb9 + s.hb10 + s.hb11 + s.hb12 + s.hb13 + s.hb14 + s.hb15 +
  s.hCreatedLog

/-- The run is complete: every child process has terminated (the parent
then passes its `wait` loop and exits with code 0, proj2.c:423-433). -/
def Terminal (s : St) : Prop := activeO s = 0 ∧ activeH s = 0

/-- `st` abbreviates the effect of the startup supply check: 1 when
`args.no == 0 || args.nh < 2` (the flag is set and each queue posted once
before any child runs), else 0. -/
def stVal (no nh : Nat) : Nat := if no = 0 ∨ nh < 2 then 1 else 0

/-! ### Region sums of the counting state

Each definition adds up the processes standing in one region of the two
process bodies; they are the vocabulary of the global invariant. -/

/-- Oxygens before the `sem_wait(SEM_MUTEX)` of proj2.c:240 completes. -/
def preO (s : St) : Nat := s.oStart + s.oQueueLog + s.oMutexW

/-- Oxygens inside the match branch proj2.c:243-246 (before the queue post
of l.246 completes). -/
def brO (s : St) : Nat := s.oPH1 + s.oPH2 + s.oHcDec + s.oPOQ

/-- Oxygens holding the admission critical section proj2.c:241-250. -/
def admO (s : St) : Nat := s.oOcInc + s.oHChk + brO s + s.oPMut

/-- Oxygens inside the shutdown cascade proj2.c:255-258. -/
def cascO (s : St) : Nat := s.oCLog + s.oCPMut + s.oCPO + s.oCPH

/-- Oxygens inside `barrier()` (proj2.c:272). -/
def obSum (s : St) : Nat :=
  s.ob0 + s.ob1 + s.ob2 + s.ob3 + s.ob4 + s.ob5 + s.ob6 + s.ob7 +
  s.ob8 + s.ob9 + s.ob10 + s.ob11 + s.ob12 + s.ob13 + s.ob14 + s.ob15

/-- Oxygens past the barrier, up to the final mutex post proj2.c:273-286. -/
def oPB (s : St) : Nat :=
  s.oCreatedLog + s.oChk1 + s.oSet1 + s.oPost1 + s.oChk2 +
  s.oSet2 + s.oPost2 + s.oFinPMut

/-- Oxygens in the creation region proj2.c:264-286. -/
def creO (s : St) : Nat :=
  s.oCreatingLog + s.oMcInc + s.oOpInc + obSum s + oPB s

/-- Oxygens past the first turnstile of their barrier passage
(proj2.c:208 completed). -/
def obTail (s : St) : Nat :=
  s.ob7 + s.ob8 + s.ob9 + s.ob10 + s.ob11 + s.ob12 + s.ob13 +
  s.ob14 + s.ob15 + oPB s

/-- Hydrogens before the `sem_wait(SEM_MUTEX)` of proj2.c:310 completes. -/
def preH (s : St) : Nat := s.hStart + s.hQueueLog + s.hMutexW

/-- Hydrogens inside the match branch proj2.c:313-316. -/
def brH (s : St) : Nat := s.hPH1 + s.hPH2 + s.hHcDec + s.hPOQ

/-- Hydrogens holding the admission critical section proj2.c:311-320. -/
def admH (s : St) : Nat := s.hHcInc + s.hChk + brH s + s.hPMut

/-- Hydrogens inside the shutdown cascade proj2.c:325-327. -/
def cascH (s : St) : Nat := s.hCLog + s.hCPO + s.hCPH

/-- Hydrogens inside `barrier()` (proj2.c:337). -/
def hbSum (s : St) : Nat :=
  s.hb0 + s.hb1 + s.hb2 + s.hb3 + s.hb4 + s.hb5 + s.hb6 + s.hb7 +
  s.hb8 + s.hb9 + s.hb10 + s.hb11 + s.hb12 + s.hb13 + s.hb14 + s.hb15

/-- Hydrogens in the creation region proj2.c:333-338. -/
def creH (s : St) : Nat :=
  s.hCreatingLog + s.hHpInc + hbSum s + s.hCreatedLog

/-- Number of completed or pending matches: every execution of the queue
post of proj2.c:246/316 moved a process into `oOcDec`/`hOcDec`, and every
completed reservation is counted by the ghosts `gOM`/`gHM`. -/
def mTok (s : St) : Nat := s.oOcDec + s.gOM + s.hOcDec + s.gHM

/-- Hydrogens past the turnstile-counter increment of their barrier
passage (proj2.c:202), including finished ones. -/
def sPH1 (s : St) : Nat :=
  s.hb2 + s.hb3 + s.hb4 + s.hb5 + s.hb6 + s.hb7 + s.hb8 + s.hb9 +
  s.hb10 + s.hb11 + s.hb12 + s.hb13 + s.hb14 + s.hb15 + s.hCreatedLog + s.hExitA

/-- Hydrogens past the turnstile-counter decrement of their barrier
passage (proj2.c:211), including finished ones. -/
def sPH9 (s : St) : Nat :=
  s.hb10 + s.hb11 + s.hb12 + s.hb13 + s.hb14 + s.hb15 +
  s.hCreatedLog + s.hExitA

/-- Hydrogens in creation that have not yet passed the barrier decrement. -/
def hHead9 (s : St) : Nat :=
  s.hCreatingLog + s.hHpInc + s.hb0 + s.hb1 + s.hb2 + s.hb3 + s.hb4 +
  s.hb5 + s.hb6 + s.hb7 + s.hb8 + s.hb9

/-- Hydrogens in creation that have not yet passed the first turnstile. -/
def hHead6 (s : St) : Nat :=
  s.hCreatingLog + s.hHpInc + s.hb0 + s.hb1 + s.hb2 + s.hb3 + s.hb4 +
  s.hb5 + s.hb6

/-! ### The conjuncts of the global invariant -/

/-- Oxygen process totality: every oxygen stands in exactly one region. -/
def inv01_totO (no : Nat) (s : St) : Prop :=
  preO s + admO s + s.oOcDec + s.oQW + s.oFlagChk + cascO s + creO s +
    s.oExitA + s.oExitC = no

/-- Hydrogen process totality. -/
def inv02_totH (nh : Nat) (s : St) : Prop :=
  preH s + admH s + s.hOcDec + s.hQW + s.hFlagChk + cascH s + creH s +
    s.hExitA + s.hExitC = nh

/-- `oxygen_count` equals increments (l.241) minus completed decrements
(l.247, l.317). -/
def inv03_oc (no : Nat) (s : St) : Prop :=
  s.oxygen_count + s.gOM + s.gHM + preO s + s.oOcInc = no

/-- `hydrogen_count` equals increments (l.311) minus completed decrements
(l.245, l.315). -/
def inv04_hc (nh : Nat) (s : St) : Prop :=
  s.hydrogen_count + 2 * (s.oPOQ + s.oOcDec + s.gOM) +
    2 * (s.hPOQ + s.hOcDec + s.gHM) + preH s + s.hHcInc = nh

/-- `molecule_count` counts oxygens past the increment of l.268. -/
def inv05_mc (s : St) : Prop :=
  s.molecule_count = s.oOpInc + obSum s + oPB s + s.oExitA

/-- `oxygen_processed` counts oxygens past the increment of l.269. -/
def inv06_op (s : St) : Prop :=
  s.oxygen_processed = obSum s + oPB s + s.oExitA

/-- `hydrogen_processed` counts hydrogens past the increment of l.334. -/
def inv07_hp (s : St) : Prop :=
  s.hydrogen_processed = hbSum s + s.hCreatedLog + s.hExitA

/-- Oxygen cascade log lines count oxygens past l.255. -/
def inv08_lO (s : St) : Prop :=
  s.logOCasc = s.oCPMut + s.oCPO + s.oCPH + s.oExitC

/-- Hydrogen cascade log lines count hydrogens past l.325. -/
def inv09_lH (s : St) : Prop :=
  s.logHCasc = s.hCPO + s.hCPH + s.hExitC

/-- Conservation of `SEM_MUTEX` (initial value 1): waits at l.240/310,
posts at l.249/256/286/319. -/
def inv10_mutex (no nh : Nat) (s : St) : Prop :=
  s.mutex + no + nh = 1 + s.gOPM + s.gHPM + s.oCPO + s.oCPH + s.oExitC +
    s.oExitA + preO s + preH s

/-- Every oxygen past its admission check went through exactly one of the
two branches. -/
def inv11_brO (s : St) : Prop :=
  s.gOPM + s.gOM = s.oQW + s.oFlagChk + cascO s + creO s + s.oExitA + s.oExitC

/-- Every hydrogen past its admission check went through exactly one branch. -/
def inv12_brH (s : St) : Prop :=
  s.gHPM + s.gHM = s.hQW + s.hFlagChk + cascH s + creH s + s.hExitA + s.hExitC

/-- Conservation of `SEM_OXYGEN_QUEUE`: posts at l.246/316/257/278/326 and
the startup post, waits at l.251/321 side (oxygen side: l.251). -/
def inv13_oq (st : Nat) (s : St) : Prop :=
  s.oxygen_queue + s.oFlagChk + cascO s + creO s + s.oExitA + s.oExitC =
    mTok s + s.gSupO + s.oCPH + s.oExitC + s.hCPH + s.hExitC + st

/-- Conservation of `SEM_HYDROGEN_QUEUE`: two posts per match branch
(l.243-244/313-314), cascade posts (l.258/327), the supply post l.282 and
the startup post; waits at l.321. -/
def inv14_hq (st : Nat) (s : St) : Prop :=
  s.hydrogen_queue + s.hFlagChk + cascH s + creH s + s.hExitA + s.hExitC =
    (s.oPH2 + s.oHcDec + s.oPOQ + s.oOcDec + s.gOM) +
    (s.oHcDec + s.oPOQ + s.oOcDec + s.gOM) +
    (s.hPH2 + s.hHcDec + s.hPOQ + s.hOcDec + s.gHM) +
    (s.hHcDec + s.hPOQ + s.hOcDec + s.gHM) +
    s.gSupH + s.oExitC + s.hExitC + st

/-- Conservation of `SEM_TURNSTILE_MUTEX`: held between l.201 and l.207
and between l.210 and l.216. -/
def inv15_tsm (s : St) : Prop :=
  s.turnstile_mutex +
    (s.ob1 + s.hb1 + s.ob2 + s.hb2 + s.ob3 + s.hb3 + s.ob4 + s.hb4 +
     s.ob5 + s.hb5) +
    (s.ob9 + s.hb9 + s.ob10 + s.hb10 + s.ob11 + s.hb11 + s.ob12 + s.hb12 +
     s.ob13 + s.hb13) = 1

/-- `turnstile_count` counts processes between the increment l.202 and the
decrement l.211. -/
def inv16_tc (s : St) : Prop :=
  s.turnstile_count =
    s.ob2 + s.hb2 + s.ob3 + s.hb3 + s.ob4 + s.hb4 + s.ob5 + s.hb5 +
    s.ob6 + s.hb6 + s.ob7 + s.hb7 + s.ob8 + s.hb8 + s.ob9 + s.hb9

/-- Conservation of `SEM_TURNSTILE`: posted at l.205 (ghost `gK`) and
l.209, waited at l.208 and l.213 (the drain, ghost `gK2`). -/
def inv17_ts (s : St) : Prop :=
  s.turnstile + s.ob7 + s.hb7 + s.ob12 + s.hb12 + s.gK2 = s.gK

/-- Conservation of `SEM_TURNSTILE2` (initial value 1): waited at l.204
and l.217, posted at l.214 (ghost `gK2`) and l.218. -/
def inv18_ts2 (s : St) : Prop :=
  s.turnstile2 + s.gK + s.ob4 + s.hb4 + s.ob15 + s.hb15 = 1 + s.gK2

/-- `not_enough` is a boolean. -/
def inv19_flag (s : St) : Prop := s.not_enough ≤ 1

/-- If the startup check fired, the flag is set (and stays set). -/
def inv20_st (st : Nat) (s : St) : Prop := st = 1 → s.not_enough = 1

/-- Before the flag is set nobody has entered a cascade branch and no
supply post has happened. -/
def inv21_noCasc (s : St) : Prop :=
  s.not_enough = 0 →
    cascO s + s.oExitC + cascH s + s.hExitC = 0 ∧ s.gSupO = 0 ∧
    s.gSupH = 0 ∧ s.oPost1 = 0 ∧ s.oPost2 = 0

/-- The guard fact of the first supply branch (l.276) carried to the flag
write: fewer than 2 hydrogens remained. -/
def inv22_set1 (nh : Nat) (s : St) : Prop :=
  1 ≤ s.oSet1 + s.oPost1 → nh ≤ s.hydrogen_processed + 1

/-- The guard fact of the second supply branch (l.279): no oxygen remained. -/
def inv23_set2 (no : Nat) (s : St) : Prop :=
  1 ≤ s.oSet2 + s.oPost2 → s.oxygen_processed = no

/-- Session exclusion: before the flag, the unit of `SEM_MUTEX` is held by
the mutex itself, an admission in progress, an unconsumed oxygen-queue
token, a woken oxygen at its flag check, or the single creating oxygen. -/
def inv24_mutexS (s : St) : Prop :=
  s.not_enough = 0 →
    s.mutex + admO s + admH s + s.oxygen_queue + s.oFlagChk + creO s = 1

/-- Once the flag is set, entries into creation balance the matches. -/
def inv25_settled (s : St) : Prop :=
  s.not_enough = 1 →
    creO s + s.oExitA = mTok s ∧ creH s + s.hExitA = 2 * mTok s

/-- Barrier releases and drains alternate. -/
def inv26_k (s : St) : Prop := s.gK2 ≤ s.gK ∧ s.gK ≤ s.gK2 + 1

/-- At most one oxygen is in the creation region. -/
def inv27_creO (s : St) : Prop := creO s ≤ 1

/-- Every release let two hydrogens past the counter increment. -/
def inv28_relH (s : St) : Prop := 2 * s.gK ≤ sPH1 s

/-- Every drained cohort contained two hydrogens past the decrement. -/
def inv29_drainH (s : St) : Prop := 2 * s.gK2 ≤ sPH9 s

/-- A trigger inside l.204-205 saw the counter full with the previous
cohort drained. -/
def inv30_trig2 (s : St) : Prop :=
  1 ≤ s.ob3 + s.hb3 + s.ob4 + s.hb4 → s.turnstile_count = 3 ∧ s.gK = s.gK2

/-- A drain trigger inside l.213-214 saw the counter at zero. -/
def inv31_trigD (s : St) : Prop :=
  1 ≤ s.ob11 + s.hb11 + s.ob12 + s.hb12 → s.turnstile_count = 0

/-- An oxygen past the second turnstile wait has its cohort drained. -/
def inv32_obDrain (s : St) : Prop :=
  s.not_enough = 0 → 1 ≤ s.ob15 + oPB s → s.gK = s.gK2

/-- An oxygen past the first turnstile: the hydrogen queue is empty, no
hydrogen sits at its flag check, and all matches are released. -/
def inv33_obTail (s : St) : Prop :=
  s.not_enough = 0 → 1 ≤ obTail s →
    s.hydrogen_queue = 0 ∧ s.hFlagChk = 0 ∧ mTok s ≤ s.gK

/-- Matches never outrun releases by more than the session in progress. -/
def inv34_S4b (s : St) : Prop :=
  s.not_enough = 0 → mTok s ≤ s.gK + creO s + s.oxygen_queue + s.oFlagChk

/-- Between sessions the barrier is fully drained. -/
def inv35_S4d (s : St) : Prop :=
  s.not_enough = 0 → creO s = 0 → s.gK = s.gK2

/-- Matches never outrun drains by more than one. -/
def inv36_S4i (s : St) : Prop :=
  s.not_enough = 0 → mTok s ≤ s.gK2 + 1

/-- Once the flag is set no match branch or reservation is in progress. -/
def inv37_F3 (s : St) : Prop :=
  s.not_enough = 1 → brO s + s.oOcDec + brH s + s.hOcDec = 0

/-- Once the flag is set the creation region is empty up to the points the
setting oxygen has already passed (it stands at a post or the final mutex
post), and no hydrogen is before its barrier decrement. -/
def inv38_F2 (s : St) : Prop :=
  s.not_enough = 1 →
    s.oCreatingLog + s.oMcInc + s.oOpInc + obSum s + s.oCreatedLog +
      s.oChk1 + s.oSet1 + s.oChk2 + s.oSet2 = 0 ∧
    hHead9 s = 0

/-- Where the flag can have come from. -/
def inv39_src (no nh st : Nat) (s : St) : Prop :=
  s.not_enough = 1 →
    st = 1 ∨ nh ≤ s.hydrogen_processed + 1 ∨ s.oxygen_processed = no

/-- Each match consumed a distinct oxygen admission. -/
def inv40_mNo (no : Nat) (s : St) : Prop :=
  mTok s + preO s + s.oOcInc ≤ no

/-- Pending reservations and match branches are backed by `oxygen_count`. -/
def inv41_ocBack (s : St) : Prop :=
  s.not_enough = 0 → s.oOcDec + s.hOcDec + brO s + brH s ≤ s.oxygen_count

/-- The hydrogen count read by an oxygen match guard (l.242) stays ≥ 2
through the branch. -/
def inv42_oHC (s : St) : Prop :=
  s.not_enough = 0 → 1 ≤ s.oPH1 + s.oPH2 + s.oHcDec → 2 ≤ s.hydrogen_count

/-- The hydrogen count read by a hydrogen match guard (l.312) stays ≥ 2
through the branch. -/
def inv43_hHC (s : St) : Prop :=
  s.not_enough = 0 → 1 ≤ s.hPH1 + s.hPH2 + s.hHcDec → 2 ≤ s.hydrogen_count

/-- Oxygen-side queue waiters are token-backed, or fewer than two
hydrogens are effectively waiting (the matching discipline of l.240-251). -/
def inv44_park (s : St) : Prop :=
  s.not_enough = 0 →
    s.oPMut + s.oQW ≤ s.oxygen_queue ∨
    s.hydrogen_count ≤ 1 + s.hChk + s.hPH1 + s.hPH2 + s.hHcDec +
      2 * (s.oPH1 + s.oPH2 + s.oHcDec)

/-- A pending reservation keeps its own queue token. -/
def inv45_pend (s : St) : Prop :=
  s.not_enough = 0 →
    s.oOcDec ≤ s.oxygen_queue ∧
    s.oOcDec + s.hOcDec ≤ s.oxygen_queue + s.oFlagChk + creO s

/-- While a reservation or match branch is pending no oxygen-queue waiter
has woken. -/
def inv46_oQW (s : St) : Prop :=
  s.not_enough = 0 → 1 ≤ brO s + s.oOcDec → s.oQW = 0

/-- A pending hydrogen-led reservation pins down the session state: the
barrier is drained and frozen, one parked hydrogen was counted, and both
hydrogen-queue tokens of the match are accounted for. -/
def inv47_hPend (s : St) : Prop :=
  s.not_enough = 0 → 1 ≤ s.hOcDec →
    s.gK = s.gK2 ∧
    s.gHPM = 2 * s.gOM + s.gHM + 1 ∧
    s.hydrogen_queue + s.hFlagChk + hHead9 s = 2 ∧
    s.hFlagChk + hHead6 s ≤ 1 ∧
    s.hb7 + s.hb8 + s.hb9 = 0 ∧
    sPH9 s = 2 * (s.gOM + s.gHM)

/-- At most the two hydrogens of the open session are in creation before
their barrier decrement. -/
def inv48_hCre (s : St) : Prop :=
  s.not_enough = 0 → s.hFlagChk + hHead9 s ≤ 2

/-- Between a release and its drain nobody stands past the first turnstile
inside the barrier bookkeeping section. -/
def inv49_drained (s : St) : Prop :=
  s.gK = s.gK2 →
    s.ob7 + s.hb7 + s.ob8 + s.hb8 + s.ob9 + s.hb9 + s.ob10 + s.hb10 +
      s.ob11 + s.hb11 = 0

/-- The turnstile counter never exceeds the cohort size. -/
def inv50_tc3 (s : St) : Prop := s.turnstile_count ≤ 3

/-- The global inductive invariant of the interleaving model: the
conjunction of all the clauses above. -/
def Inv (no nh st : Nat) (s : St) : Prop :=
  inv01_totO no s ∧ inv02_totH nh s ∧ inv03_oc no s ∧ inv04_hc nh s ∧
  inv05_mc s ∧ inv06_op s ∧ inv07_hp s ∧ inv08_lO s ∧ inv09_lH s ∧
  inv10_mutex no nh s ∧ inv11_brO s ∧ inv12_brH s ∧ inv13_oq st s ∧
  inv14_hq st s ∧ inv15_tsm s ∧ inv16_tc s ∧ inv17_ts s ∧ inv18_ts2 s ∧
  inv19_flag s ∧ inv20_st st s ∧ inv21_noCasc s ∧ inv22_set1 nh s ∧
  inv23_set2 no s ∧ inv24_mutexS s ∧ inv25_settled s ∧ inv26_k s ∧
  inv27_creO s ∧ inv28_relH s ∧ inv29_drainH s ∧ inv30_trig2 s ∧
  inv31_trigD s ∧ inv32_obDrain s ∧ inv33_obTail s ∧ inv34_S4b s ∧
  inv35_S4d s ∧ inv36_S4i s ∧ inv37_F3 s ∧ inv38_F2 s ∧
  inv39_src no nh st s ∧ inv40_mNo no s ∧ inv41_ocBack s ∧ inv42_oHC s ∧
  inv43_hHC s ∧ inv44_park s ∧ inv45_pend s ∧ inv46_oQW s ∧
  inv47_hPend s ∧ inv48_hCre s ∧ inv49_drained s ∧ inv50_tc3 s


/-! ## Theorems -/

lemma U32_eq : U32 = 4294967296 := by norm_num [U32]

lemma u32sub_of_le (a b : Nat) (hb : b ≤ a) (ha : a < U32) : u32sub a b = a - b := by
  unfold u32sub
  rw [U32_eq] at *
  omega

/-! ### C9: the random delay is well defined and bounded -/

/-- C9: for every configured maximum delay `millis ∈ [0, 1000]` (the
validated range of `TI` and `TB`), the modulo divisor `millis + 1` of
`wait_rand` is nonzero in `uint32_t` arithmetic, and the chosen delay lies
in the closed interval `[0, millis]` milliseconds (the lower bound 0 is
inherent to `Nat`). -/
theorem wait_rand_delay_in_range (r millis : Nat) (h : millis ≤ 1000) :
    (millis + 1) % U32 ≠ 0 ∧ wait_rand_delay r millis ≤ millis := by
  unfold wait_rand_delay
  simp only [U32_eq]
  have hdiv : (millis + 1) % 4294967296 = millis + 1 := by omega
  rw [hdiv]
  have hmod := Nat.mod_lt r (y := millis + 1) (by omega)
  omega

/-- Witness for C9 at `r = 7`, `millis = 1000`. -/
theorem wait_rand_delay_in_range_witness :
    1000 ≤ 1000 ∧ ((1000 + 1) % U32 ≠ 0 ∧ wait_rand_delay 7 1000 ≤ 1000) :=
  ⟨le_refl 1000, wait_rand_delay_in_range 7 1000 (le_refl 1000)⟩

/-! ### C10: accepted arguments are truncated to 32 bits -/

/-- C10: `parse_argument` accepts every `NO` value in `[1, LONG_MAX]`, but
`main` stores the accepted `unsigned long` into the 32-bit `no` field of
`arguments_t`, so the oxygen total used by the run is the accepted value
reduced modulo `2^32`.  In particular the accepted input
`NO = 4294967296` (valid on LP64, where `LONG_MAX > 2^32`) stores the
oxygen total 0 — a value `parse_argument` itself rejects (`0 < min = 1`),
as the last conjunct shows. -/
theorem parse_argument_truncation (n : Nat) (h1 : 1 ≤ n) (h2 : n ≤ LONG_MAX) :
    parse_argument n 1 LONG_MAX = some n ∧
    parseArgs n 5 0 0 = some ⟨n % U32, 5, 0, 0⟩ ∧
    parseArgs 4294967296 5 0 0 = some ⟨0, 5, 0, 0⟩ ∧
    parse_argument 0 1 LONG_MAX = none := by
  have hL : (5 : Nat) ≤ LONG_MAX := by norm_num [LONG_MAX]
  have hself : parse_argument n 1 LONG_MAX = some n := by
    unfold parse_argument
    rw [if_neg (by omega)]
  refine ⟨hself, ?_, ?_, ?_⟩
  · unfold parseArgs
    rw [hself]
    simp [parse_argument, LONG_MAX, U32_eq]
  · unfold parseArgs parse_argument
    norm_num [LONG_MAX, U32_eq]
  · unfold parse_argument
    rw [if_pos (by omega)]

/-- Witness for C10 at `n = 4294967296`: the value is accepted and the
stored oxygen total is 0. -/
theorem parse_argument_truncation_witness :
    (1 ≤ 4294967296 ∧ 4294967296 ≤ LONG_MAX) ∧
      parseArgs 4294967296 5 0 0 = some ⟨0, 5, 0, 0⟩ := by
  have h1 : (1 : Nat) ≤ 4294967296 := by norm_num
  have h2 : (4294967296 : Nat) ≤ LONG_MAX := by norm_num [LONG_MAX]
  exact ⟨⟨h1, h2⟩, (parse_argument_truncation 4294967296 h1 h2).2.2.1⟩

/-! ### C2: the input `NO = 0` is rejected, not cascaded -/

/-- C2 counterexample: on the input `NO = 0, NH = 5, TI = 0, TB = 0`, the
claim asserts an immediate shutdown cascade of all 5 hydrogen units and
exit code 0; but `main` validates `NO` with `parse_argument(argv[1], 1,
LONG_MAX)` (proj2.c:356), which rejects 0 and exits with code 1 before any
shared state or child process exists (`parseArgs … = none` models exactly
this failure).  So no cascade happens and the exit code is 1, not 0. -/
theorem no_zero_rejected_counterexample : parseArgs 0 5 0 0 = none := by
  unfold parseArgs parse_argument
  norm_num [LONG_MAX]

/-- C2 amended: for the input `NO = 0, NH = 5` (and any `TI, TB` in
`[0, 1000]`), argument validation fails on `NO` and the program exits with
code 1: no unit is spawned, 0 molecules are formed, and no shutdown cascade
takes place. -/
theorem no_zero_rejected (ti tb : Nat) (_hti : ti ≤ 1000) (_htb : tb ≤ 1000) :
    parseArgs 0 5 ti tb = none := by
  unfold parseArgs parse_argument
  norm_num [LONG_MAX]

/-- Witness for the amended C2 at `TI = 0, TB = 0`. -/
theorem no_zero_rejected_witness :
    ((0 : Nat) ≤ 1000 ∧ (0 : Nat) ≤ 1000) ∧ parseArgs 0 5 0 0 = none :=
  ⟨⟨Nat.zero_le 1000, Nat.zero_le 1000⟩, no_zero_rejected 0 0 (Nat.zero_le 1000) (Nat.zero_le 1000)⟩

/-! ### C7: the startup supply check -/

/-- C7: at startup — before any unit begins pairing — `insufficient_supply`
is set and each admission queue is given exactly one initial release
precisely when the configured supply cannot produce a single molecule,
i.e. when `min no (nh / 2) = 0` (the code tests the equivalent
`no == 0 || nh < 2`); in every other case neither the flag is set nor any
initial release is given. -/
theorem startup_supply_characterization (args : arguments_t) :
    startupSupply args =
      (if min args.no (args.nh / 2) = 0 then (true, 1, 1) else (false, 0, 0)) := by
  unfold startupSupply
  rcases Nat.lt_or_ge args.nh 2 with h | h
  · rw [if_pos (Or.inr h), if_pos (by omega)]
  · rcases Nat.eq_zero_or_pos args.no with h0 | h0
    · rw [if_pos (Or.inl h0), if_pos (by omega)]
    · rw [if_neg (by omega), if_neg (by omega)]

/-! ### C8: log sequence numbers are contiguous from 1 -/

lemma flog_iterate (k : Nat) (hk : k + 1 ≤ U32) :
    flog^[k] initLog = ⟨(k + 1) % U32, List.range' 1 k⟩ := by
  induction k with
  | zero => simp [initLog, U32_eq]
  | succ n ih =>
      rw [Function.iterate_succ_apply', ih (by rw [U32_eq] at hk ⊢; omega)]
      unfold flog
      simp only [U32_eq] at hk ⊢
      have h1 : (n + 1) % 4294967296 = n + 1 := by omega
      rw [h1, List.range'_1_concat, Nat.add_comm 1 n]

/-- C8: over a whole run making `k` log calls (`k ≤ 2^32 - 1`), the
sequence numbers prefixed to the log lines (each printed as the number,
then a colon and a space, then the message) form the contiguous strictly
increasing sequence `1, 2, …, k`; and every `flog` call, while holding
`SEM_LOG_MUTEX`, prints the current counter value and increments the
counter by exactly one (`uint32_t` arithmetic). -/
theorem log_sequence_contiguous (k : Nat) (hk : k + 1 ≤ U32) :
    (flog^[k] initLog).printed = List.range' 1 k ∧
    ∀ s : LogState,
      (flog s).printed = s.printed ++ [s.log_line_number] ∧
      (flog s).log_line_number = (s.log_line_number + 1) % U32 := by
  refine ⟨?_, fun s => ⟨rfl, rfl⟩⟩
  rw [flog_iterate k hk]

/-- Witness for C8 at `k = 3`: the first three lines are numbered 1, 2, 3. -/
theorem log_sequence_contiguous_witness :
    3 + 1 ≤ U32 ∧ (flog^[3] initLog).printed = List.range' 1 3 := by
  have hk : 3 + 1 ≤ U32 := by norm_num [U32]
  exact ⟨hk, (log_sequence_contiguous 3 hk).1⟩

/-! ### C6: matches drain the waiting counters -/

lemma invAdm_arrive (a : Arrival) (s : AdmState) (h : InvAdm s) :
    InvAdm (arrive a s).1 := by
  obtain ⟨h1, h2, h3⟩ := h
  rw [U32_eq] at h1 h2
  unfold InvAdm
  cases a <;> simp only [arrive, u32sub, U32_eq] <;> split_ifs <;>
    dsimp only <;> omega

lemma invAdm_foldl (l : List Arrival) (s : AdmState) (h : InvAdm s) :
    InvAdm (l.foldl (fun s a => (arrive a s).1) s) := by
  induction l generalizing s with
  | nil => exact h
  | cons a t ih => exact ih _ (invAdm_arrive a s h)

lemma invAdm_run (l : List Arrival) : InvAdm (runAdm l) := by
  refine invAdm_foldl l initAdm ⟨?_, ?_, ?_⟩ <;> norm_num [initAdm, U32_eq]

/-- C6: for the waiting counters reached by any admission sequence `l`:
immediately after any successful match-and-dequeue step the counters
satisfy `oxygen_count < 1 ∨ hydrogen_count < 2`; a match consumes exactly
1 from the oxygen waiting count (the arriving unit included) and exactly 2
from the hydrogen waiting count; and a match is performed whenever both
thresholds — at least 1 oxygen and at least 2 hydrogen waiting, counting
the arriving unit — are met. -/
theorem match_drains_queues (l : List Arrival) (a : Arrival) :
    ((arrive a (runAdm l)).2 = true →
      (arrive a (runAdm l)).1.oxygen_count < 1 ∨
        (arrive a (runAdm l)).1.hydrogen_count < 2) ∧
    (a = .oxygen → 2 ≤ (runAdm l).hydrogen_count →
      (arrive a (runAdm l)).2 = true ∧
      (arrive a (runAdm l)).1.oxygen_count = ((runAdm l).oxygen_count + 1) - 1 ∧
      (arrive a (runAdm l)).1.hydrogen_count = (runAdm l).hydrogen_count - 2) ∧
    (a = .hydrogen → 2 ≤ (runAdm l).hydrogen_count + 1 → 1 ≤ (runAdm l).oxygen_count →
      (arrive a (runAdm l)).2 = true ∧
      (arrive a (runAdm l)).1.oxygen_count = (runAdm l).oxygen_count - 1 ∧
      (arrive a (runAdm l)).1.hydrogen_count = ((runAdm l).hydrogen_count + 1) - 2) := by
  obtain ⟨h1, h2, h3⟩ := invAdm_run l
  rw [U32_eq] at h1 h2
  cases a with
  | oxygen =>
      refine ⟨?_, ?_, ?_⟩
      · intro hm
        simp only [arrive, u32sub, U32_eq] at hm ⊢
        split_ifs at hm ⊢ with hc
        dsimp only
        omega
      · intro _ hge
        simp only [arrive, u32sub, U32_eq]
        split_ifs with hc
        · dsimp only
          refine ⟨rfl, ?_, ?_⟩ <;> omega
        · exact absurd hge (by omega)
      · intro hcontr
        exact absurd hcontr (by decide)
  | hydrogen =>
      refine ⟨?_, ?_, ?_⟩
      · intro hm
        simp only [arrive, u32sub, U32_eq] at hm ⊢
        split_ifs at hm ⊢ with hc
        dsimp only
        omega
      · intro hcontr
        exact absurd hcontr (by decide)
      · intro _ hge hox
        have hh := h3 hox
        simp only [arrive, u32sub, U32_eq]
        split_ifs with hc
        · dsimp only
          refine ⟨rfl, ?_, ?_⟩ <;> omega
        · exfalso
          omega

/-- Witness for C6: after two hydrogen arrivals, an arriving oxygen finds
the threshold met, performs the match, and the drained-counters disjunct
holds. -/
theorem match_drains_queues_witness :
    2 ≤ (runAdm [.hydrogen, .hydrogen]).hydrogen_count ∧
    (arrive .oxygen (runAdm [.hydrogen, .hydrogen])).2 = true ∧
    ((arrive .oxygen (runAdm [.hydrogen, .hydrogen])).1.oxygen_count < 1 ∨
      (arrive .oxygen (runAdm [.hydrogen, .hydrogen])).1.hydrogen_count < 2) := by
  have h := match_drains_queues [.hydrogen, .hydrogen] .oxygen
  have hth : 2 ≤ (runAdm [.hydrogen, .hydrogen]).hydrogen_count := by decide
  exact ⟨hth, (h.2.1 rfl hth).1, h.1 (h.2.1 rfl hth).1⟩

/-! ### C3: the post-barrier supply check -/

/-- C3: after a creation party's barrier releases — and only then: the
check sits in the oxygen body directly after `barrier()` and the
"molecule created" log, and the hydrogen body contains no supply
evaluation at all — the oxygen unit evaluates remaining supply.  With
`remaining oxygen = no - oxygen_processed` and `remaining hydrogen =
nh - hydrogen_processed` (ordinary subtraction, valid because consumption
never exceeds the `uint32_t` totals): if remaining oxygen is nonzero and
remaining hydrogen is below 2 it sets `not_enough` and releases one
oxygen-side-queue waiter; else if remaining oxygen is exactly zero and
remaining hydrogen is nonzero it sets `not_enough` and releases one
hydrogen-side-queue waiter; in every other case it changes nothing.  The
last two conjuncts give the semantics of the two branch blocks. -/
theorem supply_check_characterization (args : arguments_t) (op hp : Nat)
    (h1 : op ≤ args.no) (h2 : hp ≤ args.nh)
    (h3 : args.no < U32) (h4 : args.nh < U32) :
    (1 ≤ args.no - op ∧ args.nh - hp < 2 →
      supply_check args op hp = .wake_oxygen) ∧
    (args.no - op = 0 ∧ 0 < args.nh - hp →
      supply_check args op hp = .wake_hydrogen) ∧
    (¬(1 ≤ args.no - op ∧ args.nh - hp < 2) ∧ ¬(args.no - op = 0 ∧ 0 < args.nh - hp) →
      supply_check args op hp = .nothing) ∧
    (flatten1 hydrogen_body).countP isSupplyEval = 0 ∧
    (afterShutdownCheck oxygen_body)[4]? = some .barrier_call ∧
    (afterShutdownCheck oxygen_body)[5]? = some (.flog .created) ∧
    (afterShutdownCheck oxygen_body)[6]? =
      some (.if_supply1 [.set_not_enough, .sem_post .oxygen_queue]) ∧
    (afterShutdownCheck oxygen_body)[7]? =
      some (.if_supply2 [.set_not_enough, .sem_post .hydrogen_queue]) ∧
    (∀ s : CState, runSeq [.set_not_enough, .sem_post .oxygen_queue] s =
      some { s with not_enough := true,
                    sem_oxygen_queue := s.sem_oxygen_queue + 1 }) ∧
    (∀ s : CState, runSeq [.set_not_enough, .sem_post .hydrogen_queue] s =
      some { s with not_enough := true,
                    sem_hydrogen_queue := s.sem_hydrogen_queue + 1 }) := by
  have e1 : u32sub args.no op = args.no - op := u32sub_of_le _ _ h1 h3
  have e2 : u32sub args.nh hp = args.nh - hp := u32sub_of_le _ _ h2 h4
  refine ⟨?_, ?_, ?_, by rfl, by rfl, by rfl, by rfl, by rfl,
    fun s => by rfl, fun s => by rfl⟩ <;>
    · intro hcond
      unfold supply_check
      rw [e1, e2]
      split_ifs with hA hB <;> first | rfl | (exfalso; omega)

/-- Witness for C3 with `no = 5, nh = 2, oxygen_processed = 1,
hydrogen_processed = 2`: remaining oxygen is 4 and remaining hydrogen 0,
so the check wakes an oxygen-side waiter. -/
theorem supply_check_characterization_witness :
    ((1 : Nat) ≤ 5 ∧ (2 : Nat) ≤ 2 ∧ (5 : Nat) < U32 ∧ (2 : Nat) < U32 ∧
      1 ≤ 5 - 1 ∧ 2 - 2 < 2) ∧
    supply_check ⟨5, 2, 0, 0⟩ 1 2 = .wake_oxygen := by
  have hU : (5 : Nat) < U32 ∧ (2 : Nat) < U32 := by
    rw [U32_eq]
    exact ⟨by norm_num, by norm_num⟩
  have h := supply_check_characterization ⟨5, 2, 0, 0⟩ 1 2
    (by norm_num) (by norm_num) hU.1 hU.2
  exact ⟨⟨by norm_num, by norm_num, hU.1, hU.2, by norm_num, by norm_num⟩,
    h.1 ⟨by norm_num, by norm_num⟩⟩

/-! ### C5: the shutdown-cascade exit path -/

/-- C5: a unit released from its admission queue that observes
`not_enough = true` logs its exit-reason line, then posts exactly one
release on the oxygen-side queue and exactly one on the hydrogen-side
queue (the oxygen unit additionally posts `SEM_MUTEX`, proj2.c:256), and
terminates leaving `molecule_count`, `oxygen_processed` and
`hydrogen_processed` — and the waiting counters — unchanged.  The two
equations run the then-branch of `if (shared->not_enough)` of each body. -/
theorem cascade_exit_frame (s : CState) (_h : s.not_enough = true) :
    runSeq (cascadeBranch oxygen_body) s =
      some { s with log := s.log ++ [.not_enough_h],
                    sem_mutex := s.sem_mutex + 1,
                    sem_oxygen_queue := s.sem_oxygen_queue + 1,
                    sem_hydrogen_queue := s.sem_hydrogen_queue + 1,
                    exited := true } ∧
    runSeq (cascadeBranch hydrogen_body) s =
      some { s with log := s.log ++ [.not_enough_oh],
                    sem_oxygen_queue := s.sem_oxygen_queue + 1,
                    sem_hydrogen_queue := s.sem_hydrogen_queue + 1,
                    exited := true } :=
  ⟨rfl, rfl⟩

/-- Witness for C5 at a concrete state with `not_enough = true`. -/
theorem cascade_exit_frame_witness :
    (⟨0, 0, 0, 0, 0, true, 0, 0, 0, [], false⟩ : CState).not_enough = true ∧
    runSeq (cascadeBranch hydrogen_body) ⟨0, 0, 0, 0, 0, true, 0, 0, 0, [], false⟩ =
      some ⟨0, 0, 0, 0, 0, true, 0, 1, 1, [.not_enough_oh], true⟩ := by
  exact ⟨rfl, (cascade_exit_frame ⟨0, 0, 0, 0, 0, true, 0, 0, 0, [], false⟩ rfl).2⟩

/-! ### C4: order of barrier, created-log and consumption counters -/

/-- C4 counterexample: the claim says each participant increments its
consumption counter after its "molecule created" log line (hence after the
barrier releases).  Running the instructions each body executes between
the shutdown check and its `barrier()` call, from a concrete zero state,
already increments `hydrogen_processed` (resp. `oxygen_processed` and
`molecule_count`) while the log holds only the "creating molecule" line
and no "created" line — so in every execution the increment precedes the
barrier and the created-log line, falsifying the claim. -/
theorem consumption_incremented_before_barrier :
    runSeq (upToBarrier (afterShutdownCheck hydrogen_body))
        ⟨0, 0, 0, 0, 0, false, 0, 0, 0, [], false⟩ =
      some ⟨0, 0, 0, 0, 1, false, 0, 0, 0, [.creating], false⟩ ∧
    runSeq (upToBarrier (afterShutdownCheck oxygen_body))
        ⟨0, 0, 0, 0, 0, false, 0, 0, 0, [], false⟩ =
      some ⟨0, 0, 1, 1, 0, false, 0, 0, 0, [.creating], false⟩ :=
  ⟨rfl, rfl⟩

/-- C4 amended: every participant of a completed creation party writes its
"molecule created" log line after the barrier releases (the only
created-log of each body sits directly after `barrier()`), but its
consumption counter is incremented after the "creating molecule" line and
before entering the barrier — not after the created-log line. -/
theorem creation_order :
    (afterShutdownCheck oxygen_body)[0]? = some (.flog .creating) ∧
    (afterShutdownCheck oxygen_body)[2]? = some .incr_molecule_count ∧
    (afterShutdownCheck oxygen_body)[3]? = some .incr_oxygen_processed ∧
    (afterShutdownCheck oxygen_body)[4]? = some .barrier_call ∧
    (afterShutdownCheck oxygen_body)[5]? = some (.flog .created) ∧
    (afterShutdownCheck hydrogen_body)[0]? = some (.flog .creating) ∧
    (afterShutdownCheck hydrogen_body)[1]? = some .incr_hydrogen_processed ∧
    (afterShutdownCheck hydrogen_body)[2]? = some .barrier_call ∧
    (afterShutdownCheck hydrogen_body)[3]? = some (.flog .created) ∧
    (flatten1 (upToBarrier (afterShutdownCheck oxygen_body))).countP isCreatedLog = 0 ∧
    (flatten1 (upToBarrier (afterShutdownCheck hydrogen_body))).countP isCreatedLog = 0 ∧
    (flatten1 oxygen_body).countP isCreatedLog = 1 ∧
    (flatten1 hydrogen_body).countP isCreatedLog = 1 :=
  ⟨rfl, rfl, rfl, rfl, rfl, rfl, rfl, rfl, rfl, rfl, rfl, rfl, rfl⟩

end Proj2

